import Mathlib

/-!
Shallow embedding of `src/index.js` of pterodactyl-offline-motd.

The program keeps a registry (`servers : Map`) of status-only Minecraft
responders keyed by `"ip:port"` strings, reconciles it against a desired
allocation list, probes each backend, and updates per-responder cached
status. JavaScript truthiness on strings ("" is falsy) and on optional
values (undefined/null are falsy) is modelled explicitly via `jsOrS` and
`jsOrOpt`. Network, file system and the fetch of the allocation list are
modelled as explicit parameters describing the environment's behaviour,
so every function here is a pure, executable translation of the source.
-/

namespace OfflineMotd

/-- JavaScript `x || d` for an optional string `x` and string default `d`:
`undefined`/`null` and the empty string are falsy. -/
def jsOrS : Option String → String → String
  | some s, d => if s = "" then d else s
  | none, d => d

/-- JavaScript `x || y` where both operands are optional strings
(the result may still be `undefined`). -/
def jsOrOpt : Option String → Option String → Option String
  | some s, d => if s = "" then d else some s
  | none, d => d

/-- `ipPortKey(ip, port)` from src/index.js line 38. -/
def ipPortKey (ip : String) (port : Nat) : String :=
  ip ++ ":" ++ toString port

/-- The status payload returned by a successful backend probe
(`MCRcon.status` result): the code only ever reads `.description`;
the other fields flow through opaquely. `description` is `none` when the
reply object lacks the field. -/
structure PingInfo where
  description : Option String
  versionName : String
  playersOnline : Nat
deriving DecidableEq

/-- `server._meta` from src/index.js lines 116-121: the per-responder
status cache. -/
structure Meta where
  offlineMotd : String
  faviconBase64 : Option String
  backendOnline : Bool
  lastPingInfo : Option PingInfo
deriving DecidableEq

/-- One responder (the `server` object of `createStatusServer`): its
listening host/port, its status cache, and the `motd` presented to status
queries. `id` models JavaScript object identity: each `mc.createServer`
call yields a fresh object, so ids are allocated from a counter and never
reused. -/
structure Server where
  id : Nat
  host : String
  port : Nat
  meta : Meta
  motd : String
deriving DecidableEq

/-- The mutable module state: `servers` (the `Map` on line 35, an
insertion-ordered map with unique keys, modelled as an association list)
plus the object-identity counter. -/
structure St where
  servers : List (String × Server)
  nextId : Nat
deriving DecidableEq

/-- `servers.get(k)` / `servers.has(k)`. -/
def findServer (l : List (String × Server)) (k : String) : Option Server :=
  (l.find? (fun kv => kv.1 == k)).map (fun kv => kv.2)

/-- `servers.set(k, s)` when `k` is already present: replace the value,
preserving order (JavaScript `Map` semantics). -/
def setServer (l : List (String × Server)) (k : String) (s : Server) :
    List (String × Server) :=
  l.map (fun kv => if kv.1 == k then (k, s) else kv)

/-- The configuration options the embedded fragment reads:
`config.bindHost` and `config.defaultOfflineMotd`, both optional in the
JSON file (defaults are applied by `||` at use sites). -/
structure Config where
  bindHost : Option String
  defaultOfflineMotd : Option String

/-- `BIND_HOST = config.bindHost || '0.0.0.0'` (line 33). -/
def bindHostOf (cfg : Config) : String :=
  jsOrS cfg.bindHost "0.0.0.0"

/-- The `opts` argument of `createStatusServer`. -/
structure CreateOpts where
  offlineMotd : Option String
  faviconBase64 : Option String

/-- `createStatusServer(listenIp, port, opts)` (lines 98-159): if the key
is registered, return the existing server and leave the state unchanged;
otherwise build a fresh server whose cache holds
`offlineMotd || config.defaultOfflineMotd || 'Server is offline'` and the
given favicon, register it, and return it. -/
def createStatusServer (cfg : Config) (st : St) (listenIp : String)
    (port : Nat) (opts : CreateOpts) : Server × St :=
  let key := ipPortKey listenIp port
  match findServer st.servers key with
  | some s => (s, st)
  | none =>
    let om := jsOrS opts.offlineMotd (jsOrS cfg.defaultOfflineMotd "Server is offline")
    let s : Server :=
      { id := st.nextId
        host := listenIp
        port := port
        meta :=
          { offlineMotd := om
            faviconBase64 := opts.faviconBase64
            backendOnline := false
            lastPingInfo := none }
        motd := om }
    (s, { servers := st.servers ++ [(key, s)], nextId := st.nextId + 1 })

/-- The argument object of `server.updateStatus` (line 139):
`{ backendOnline, pingInfo, offlineMotd: om, faviconBase64: fb }`.
`backendOnline` is stored through `!!`, so a `Bool`; the other three are
optional. `om`/`fb` count as provided exactly when they are strings
(`typeof om === 'string'`), hence `Option String`. -/
structure UpdateArgs where
  backendOnline : Bool
  pingInfo : Option PingInfo
  om : Option String
  fb : Option String

/-- `server.updateStatus` (lines 139-147): always replace
`backendOnline` and `lastPingInfo`; replace `offlineMotd`/`faviconBase64`
only when the argument is a string; then recompute `server.motd` as
`backendOnline && lastPingInfo ? (lastPingInfo.description || offlineMotd)
: offlineMotd`. -/
def updateStatus (s : Server) (u : UpdateArgs) : Server :=
  let m1 : Meta := { s.meta with backendOnline := u.backendOnline, lastPingInfo := u.pingInfo }
  let m2 : Meta := match u.om with
    | some o => { m1 with offlineMotd := o }
    | none => m1
  let m3 : Meta := match u.fb with
    | some f => { m2 with faviconBase64 := some f }
    | none => m2
  let motd := match m3.backendOnline, m3.lastPingInfo with
    | true, some p => jsOrS p.description m3.offlineMotd
    | _, _ => m3.offlineMotd
  { s with meta := m3, motd := motd }

/-- The body of `closeStatusServer` for a given key string: if no server
is registered under the key, return; otherwise close it and delete the
key. -/
def closeStatusServerKey (st : St) (key : String) : St :=
  match findServer st.servers key with
  | none => st
  | some _ => { st with servers := st.servers.filter (fun kv => kv.1 != key) }

/-- `closeStatusServer(listenIp, port)` (lines 161-168): the key is built
from the arguments by `ipPortKey`, then the registered server (if any) is
closed and its key deleted. -/
def closeStatusServer (st : St) (listenIp : String) (port : Nat) : St :=
  closeStatusServerKey st (ipPortKey listenIp port)

/-- JavaScript `String.prototype.split` with a one-character separator,
over the character list (so that it is kernel-computable):
`"a:b:c" → ["a","b","c"]`, `"" → [""]`, `"::x" → ["","","x"]`. -/
def splitChars (sep : Char) : List Char → List (List Char)
  | [] => [[]]
  | c :: rest =>
    let r := splitChars sep rest
    if c = sep then [] :: r
    else
      match r with
      | h :: t => (c :: h) :: t
      | [] => [[c]]

/-- `k.split(sep)` for a one-character separator. -/
def jsSplit (s : String) (sep : Char) : List String :=
  (splitChars sep s.data).map (fun cs => String.mk cs)

/-- `parseInt(str, 10)` restricted to the strings that occur in registry
keys (no leading whitespace or sign there): the value of the leading
decimal digits, or NaN (`none`) when there are none — in particular
`parseInt("")` and `parseInt(undefined)` are NaN. -/
def parseIntJs (s : String) : Option Nat :=
  let ds := s.data.takeWhile (fun c => c.isDigit)
  if ds.isEmpty then none
  else some (ds.foldl (fun n c => n * 10 + (c.toNat - 48)) 0)

/-- `String(port)` as interpolated by the template literal in
`ipPortKey`: the decimal digits for a number, `"NaN"` for NaN. -/
def jsNumStr : Option Nat → String
  | some p => toString p
  | none => "NaN"

/-- The key that the cleanup sweep (lines 219-220) actually deletes for a
registry key `k`: `const [ip, port] = k.split(':')` takes the first two
segments, `parseInt(port, 10)` turns a non-numeric second segment into
NaN, and `closeStatusServer(ip, port)` then looks up `` `${ip}:${port}`
``. When `k` round-trips (e.g. any colon-free host), this is `k` itself;
when the host contains `:` (IPv6), the re-derived key is wrong (e.g.
`":::25565"` becomes `":NaN"`) and nothing is deleted. -/
def sweepKeyOf (k : String) : String :=
  let parts := jsSplit k ':'
  (parts.headD "") ++ ":" ++ jsNumStr (parseIntJs (parts.getD 1 ""))

/-- What the network does for one probe attempt: `MCRcon.status` either
resolves with a status object, or rejects (timeout, connection refusal,
malformed reply) with an exception carrying an optional `.message` and a
string rendering `String(e)`. -/
inductive ProbeOutcome
  | ok (info : PingInfo)
  | err (message : Option String) (str : String)
deriving DecidableEq

/-- `pingBackend`'s return value: `{ online, pingInfo?, error? }`. -/
structure ProbeResult where
  online : Bool
  pingInfo : Option PingInfo
  error : Option String
deriving DecidableEq

/-- `pingBackend(ip, port, timeout)` (lines 72-80), as a function of the
network's behaviour for that attempt: the whole body is wrapped in
try/catch, so every outcome maps to a plain result —
`{online: true, pingInfo}` on success and
`{online: false, error: e.message || String(e)}` on any rejection. -/
def pingBackend (o : ProbeOutcome) : ProbeResult :=
  match o with
  | .ok info => { online := true, pingInfo := some info, error := none }
  | .err m s => { online := false, pingInfo := none, error := some (jsOrS m s) }

/-- One allocation record as consumed by `reconcile`: fields may be
absent in the JSON. `port` is a natural number when present
(`some 0` is falsy in `!a.port`, like an absent port). -/
structure Alloc where
  ip : Option String
  port : Option Nat
  uuid : Option String
  offlineMotd : Option String
  faviconPath : Option String
deriving DecidableEq

/-- JavaScript `!a.port` guard (line 195): the allocation survives only
when the port is present and nonzero. -/
def portVal : Option Nat → Option Nat
  | none => none
  | some 0 => none
  | some (p + 1) => some (p + 1)

/-- The favicon argument of line 202:
`a.faviconPath ? loadFaviconAsBase64(a.faviconPath) : null`, with
`favLoad` standing for `loadFaviconAsBase64` (a file read that yields
`none` on failure). -/
def favOf (favLoad : String → Option String) (a : Alloc) : Option String :=
  match a.faviconPath with
  | some fp => if fp = "" then none else favLoad fp
  | none => none

/-- The probe target of line 207:
`(a.ip && a.ip !== '0.0.0.0') ? a.ip : '127.0.0.1'`. -/
def probeTarget (a : Alloc) : String :=
  match a.ip with
  | some ip => if ip == "" || ip == "0.0.0.0" then "127.0.0.1" else ip
  | none => "127.0.0.1"

/-- Accumulated effects of one reconcile cycle in progress: the module
state, the `wantedKeys` set (order-insensitive membership is all the code
uses), and the list of probe attempts `(targetIp, port)` issued so far. -/
structure CycleAcc where
  st : St
  wanted : List String
  probes : List (String × Nat)
deriving DecidableEq

/-- The body of the `for (const a of allocs)` loop (lines 194-214) for a
single allocation. `probe` is the network's behaviour per target,
`favLoad` is `loadFaviconAsBase64` (reads a file; `none` when the path is
falsy or the read fails). Steps: skip on missing port; add
`ipPortKey(a.ip || '0.0.0.0', port)` to `wantedKeys`; ensure a server at
`(BIND_HOST, port)` with the allocation's offline MOTD/favicon options;
probe the target; feed the result into `updateStatus`. -/
def processAlloc (cfg : Config) (probe : String → Nat → ProbeOutcome)
    (favLoad : String → Option String) (acc : CycleAcc) (a : Alloc) : CycleAcc :=
  match portVal a.port with
  | none => acc
  | some p =>
    let host := jsOrS a.ip "0.0.0.0"
    let key := ipPortKey host p
    let created := createStatusServer cfg acc.st (bindHostOf cfg) p
      { offlineMotd := jsOrOpt a.offlineMotd cfg.defaultOfflineMotd
        faviconBase64 := favOf favLoad a }
    let s := created.1
    let st1 := created.2
    let target := probeTarget a
    let r := pingBackend (probe target p)
    let s1 :=
      if r.online then
        updateStatus s { backendOnline := true, pingInfo := r.pingInfo, om := none, fb := none }
      else
        updateStatus s { backendOnline := false, pingInfo := none, om := none, fb := none }
    let st2 : St := { st1 with servers := setServer st1.servers (ipPortKey (bindHostOf cfg) p) s1 }
    { st := st2, wanted := acc.wanted ++ [key], probes := acc.probes ++ [(target, p)] }

/-- `reconcile` (lines 176-223) after the allocation list has been
obtained: run the per-allocation loop, then sweep (lines 217-222) —
snapshot the registry's keys (`Array.from(servers.keys())`) and, for each
key not in `wantedKeys`, re-derive `(ip, port)` via `k.split(':')` and
`parseInt(port, 10)` and call `closeStatusServer` on that pair, which
deletes the key `sweepKeyOf k` (not necessarily `k` itself when the host
contains a colon). -/
def reconcile (cfg : Config) (probe : String → Nat → ProbeOutcome)
    (favLoad : String → Option String) (st : St) (allocs : List Alloc) : CycleAcc :=
  let acc := allocs.foldl (processAlloc cfg probe favLoad) { st := st, wanted := [], probes := [] }
  let snapshot := acc.st.servers.map (fun kv => kv.1)
  { acc with
    st := snapshot.foldl
      (fun s k => if acc.wanted.contains k then s else closeStatusServerKey s (sweepKeyOf k))
      acc.st }

/-- The JSON body of the panel's HTTP response, as far as the code
inspects it: an array of allocations or anything else. -/
inductive PanelBody
  | arr (allocs : List Alloc)
  | nonArr
deriving DecidableEq

/-- What one `fetch` of the allocations endpoint does: an HTTP reply with
a status code and body, or a network/parse rejection. -/
inductive FetchOutcome
  | reply (status : Nat) (body : PanelBody)
  | netError (msg : String)
deriving DecidableEq

/-- `res.ok`: status in the 2xx range. -/
def httpOk (status : Nat) : Bool :=
  200 ≤ status && status < 300

/-- `getAllocationsFromPanel` (lines 42-65) as a function of the fetch's
behaviour: a non-`ok` status, a non-array body, or a thrown error each
log a warning and yield `[]`; otherwise the parsed array is returned. -/
def getAllocationsFromPanel (o : FetchOutcome) : List Alloc :=
  match o with
  | .reply status body =>
    if httpOk status then
      match body with
      | .arr l => l
      | .nonArr => []
    else []
  | .netError _ => []

/-- A reconcile cycle in panel mode (`config.usePanelAllocations`):
the desired list is whatever `getAllocationsFromPanel` produced. -/
def reconcilePanel (cfg : Config) (probe : String → Nat → ProbeOutcome)
    (favLoad : String → Option String) (st : St) (o : FetchOutcome) : CycleAcc :=
  reconcile cfg probe favLoad st (getAllocationsFromPanel o)

/-- Declared next-state of a handshake frame. -/
inductive Intent
  | statusIntent
  | loginIntent
deriving DecidableEq

/-- One inbound protocol frame, by category; `named` carries any other
frame by its wire name (login-phase frames such as `login_start` arrive
this way). -/
inductive Packet
  | handshake (next : Intent)
  | statusRequest
  | pingRequest (payload : Nat)
  | named (nm : String)
deriving DecidableEq

/-- The wire name the `packet` event reports for each frame (`meta.name`
in the connection handler, lines 126-132): the handshake is
`set_protocol`, the status request `ping_start`, the latency echo `ping`;
login-phase frames start with `login`. -/
def Packet.name : Packet → String
  | .handshake _ => "set_protocol"
  | .statusRequest => "ping_start"
  | .pingRequest _ => "ping"
  | .named nm => nm

/-- `nm.startsWith('login')`: the wire name begins with `login`.
Implemented over the character list so that it is kernel-computable. -/
def startsWithLogin (nm : String) : Bool :=
  "login".data.isPrefixOf nm.data

/-- Discovery-protocol phase of one connection.

Modelled from the spec: the handshake/status state machine itself lives
in the `minecraft-protocol` library, outside this repository; §4.3 of the
design gives its states `Handshake` → `Status` | `Login`. -/
inductive Phase
  | handshakeP
  | statusP
  | loginP
deriving DecidableEq

/-- Per-connection state: current phase plus whether the socket has been
ended. No state persists across connections. -/
structure ConnState where
  phase : Phase
  ended : Bool
deriving DecidableEq

/-- A fresh connection awaits the handshake. -/
def connOpen : ConnState := { phase := .handshakeP, ended := false }

/-- Data the responder sends back on one frame: a status reply built from
the responder's cached `motd` and favicon, or a pong echoing the ping
payload. -/
inductive Reply
  | statusReply (motd : String) (favicon : Option String)
  | pong (payload : Nat)
deriving DecidableEq

/-- One step of a connection to responder `s`.

The `meta.name.startsWith('login') → client.end()` intercept is embedded
from the source (lines 129-131) and fires in every phase. The remaining
transitions are modelled from the spec (§4.3), since the library's
handling of handshake/status frames is not part of this repository:
a handshake declaring status enters `Status`; a handshake declaring login
enters `Login` and immediately terminates the connection; in `Status`,
a status request is answered from the cache and a ping is echoed; every
other frame produces nothing. An ended connection processes nothing. -/
def connStep (s : Server) (c : ConnState) (p : Packet) : ConnState × List Reply :=
  if c.ended then (c, [])
  else if startsWithLogin p.name then ({ c with ended := true }, [])
  else
    match p, c.phase with
    | .handshake .statusIntent, .handshakeP => ({ c with phase := .statusP }, [])
    | .handshake .loginIntent, _ => ({ phase := .loginP, ended := true }, [])
    | .statusRequest, .statusP => (c, [.statusReply s.motd s.meta.faviconBase64])
    | .pingRequest n, .statusP => (c, [.pong n])
    | _, _ => (c, [])

/-- Run a connection over a frame sequence, collecting everything sent
back to the client. -/
def runConn (s : Server) (c : ConnState) : List Packet → ConnState × List Reply
  | [] => (c, [])
  | p :: ps =>
    let step := connStep s c p
    let rest := runConn s step.1 ps
    (rest.1, step.2 ++ rest.2)

/-- A frame that declares a login: any login-phase frame (wire name
starting with `login`), or a handshake whose declared next state is
login. -/
def declaresLogin (p : Packet) : Bool :=
  startsWithLogin p.name || p == .handshake .loginIntent

/-! ### Shared sample data for witnesses -/

/-- A concrete status payload with a description. -/
def samplePing : PingInfo :=
  { description := some "Hello", versionName := "1.16.5", playersOnline := 3 }

/-- A concrete cached state. -/
def sampleMeta : Meta :=
  { offlineMotd := "craft", faviconBase64 := none, backendOnline := false, lastPingInfo := none }

/-- A concrete responder. -/
def sampleServer : Server :=
  { id := 0, host := "0.0.0.0", port := 25565, meta := sampleMeta, motd := "craft" }

/-- A registry holding exactly `sampleServer` under its key. -/
def sampleSt : St :=
  { servers := [(ipPortKey "0.0.0.0" 25565, sampleServer)], nextId := 1 }

/-- A configuration with no explicit bind host or default MOTD. -/
def sampleCfg : Config :=
  { bindHost := none, defaultOfflineMotd := none }

/-- A network where every backend is down (connection refused). -/
def probeDown : String → Nat → ProbeOutcome :=
  fun _ _ => ProbeOutcome.err none "connect ECONNREFUSED"

/-- A file system with no readable favicon. -/
def noFav : String → Option String :=
  fun _ => none

/-- An allocation on port 25565 with offline MOTD "A" and no explicit
address. -/
def allocA : Alloc :=
  { ip := none, port := some 25565, uuid := none, offlineMotd := some "A", faviconPath := none }

/-- The same allocation with its offline MOTD changed to "B". -/
def allocB : Alloc :=
  { ip := none, port := some 25565, uuid := none, offlineMotd := some "B", faviconPath := none }

/-- An allocation whose `ip` differs from the configured bind host. -/
def allocMismatch : Alloc :=
  { ip := some "1.2.3.4", port := some 25565, uuid := some "abc", offlineMotd := none,
    faviconPath := none }

/-- First reconcile cycle over `allocA`, starting from an empty registry. -/
def cycleA : CycleAcc :=
  reconcile sampleCfg probeDown noFav { servers := [], nextId := 0 } [allocA]

/-- Second reconcile cycle, with the same allocation now carrying
offline MOTD "B". -/
def cycleB : CycleAcc :=
  reconcile sampleCfg probeDown noFav cycleA.st [allocB]

/-- First reconcile cycle over `allocMismatch`, starting from an empty
registry. -/
def cycleM1 : CycleAcc :=
  reconcile sampleCfg probeDown noFav { servers := [], nextId := 0 } [allocMismatch]

/-- Second reconcile cycle over `allocMismatch`. -/
def cycleM2 : CycleAcc :=
  reconcile sampleCfg probeDown noFav cycleM1.st [allocMismatch]

/-- A panel-mode cycle whose fetch succeeds with `[allocA]`. -/
def cyclePanelOk : CycleAcc :=
  reconcilePanel sampleCfg probeDown noFav { servers := [], nextId := 0 }
    (FetchOutcome.reply 200 (PanelBody.arr [allocA]))

/-- A follow-up panel-mode cycle whose fetch returns HTTP 500. -/
def cyclePanelFail : CycleAcc :=
  reconcilePanel sampleCfg probeDown noFav cyclePanelOk.st
    (FetchOutcome.reply 500 PanelBody.nonArr)

/-! ### Registry lemmas -/

/-- After deleting a key from the registry, a lookup of that key misses. -/
theorem findServer_filter_ne (l : List (String × Server)) (k : String) :
    findServer (l.filter (fun kv => kv.1 != k)) k = none := by
  have h : (l.filter (fun kv => kv.1 != k)).find? (fun kv => kv.1 == k) = none := by
    rw [List.find?_eq_none]
    intro x hx
    have hmem := List.mem_filter.mp hx
    have hne : x.1 ≠ k := by simpa using hmem.2
    simp [hne]
  simp [findServer, h]

/-- Lookup on a cons cell. -/
theorem findServer_cons (kv : String × Server) (t : List (String × Server)) (k : String) :
    findServer (kv :: t) k = if kv.1 == k then some kv.2 else findServer t k := by
  cases hb : (kv.1 == k) <;> simp [findServer, List.find?, hb]

/-- Lookup after appending a single binding at the end. -/
theorem findServer_append_isSome (l : List (String × Server)) (key : String) (s : Server)
    (k2 : String) :
    (findServer (l ++ [(key, s)]) k2).isSome = ((findServer l k2).isSome || (key == k2)) := by
  induction l with
  | nil =>
    rw [List.nil_append, findServer_cons]
    cases hb : (key == k2) <;> simp [hb, findServer]
  | cons kv t ih =>
    rw [List.cons_append, findServer_cons, findServer_cons]
    by_cases h : kv.1 = k2 <;> simp [h, ih]

/-- `setServer` never adds or removes keys. -/
theorem findServer_setServer_isSome (l : List (String × Server)) (k : String) (s : Server)
    (k2 : String) :
    (findServer (setServer l k s) k2).isSome = (findServer l k2).isSome := by
  induction l with
  | nil => rfl
  | cons kv t ih =>
    simp only [setServer, List.map_cons] at ih ⊢
    by_cases h : kv.1 = k
    · have hif : (if (kv.1 == k) then (k, s) else kv) = (k, s) := by simp [h]
      rw [hif, findServer_cons, findServer_cons, h]
      by_cases h2 : k = k2
      · simp [h2]
      · simp [h2]
        simpa using ih
    · have hif : (if (kv.1 == k) then (k, s) else kv) = kv := by simp [h]
      rw [hif, findServer_cons, findServer_cons]
      by_cases h2 : kv.1 = k2
      · simp [h2]
      · simp [h2]
        simpa using ih

/-- `setServer` stores the new value at a key that is present. -/
theorem findServer_setServer_self (l : List (String × Server)) (k : String) (s1 : Server)
    (h : (findServer l k).isSome = true) :
    findServer (setServer l k s1) k = some s1 := by
  induction l with
  | nil => simp [findServer] at h
  | cons kv t ih =>
    simp only [setServer, List.map_cons]
    by_cases hk : kv.1 = k
    · simp [findServer_cons, hk]
    · have h2 : (findServer t k).isSome = true := by
        simpa [findServer_cons, hk] using h
      simpa [findServer_cons, hk, setServer] using ih h2

/-- `createStatusServer` on an already-registered key returns the
registered server and leaves the state untouched. -/
theorem createStatusServer_found (cfg : Config) (st : St) (ip : String) (port : Nat)
    (opts : CreateOpts) (s : Server)
    (h : findServer st.servers (ipPortKey ip port) = some s) :
    createStatusServer cfg st ip port opts = (s, st) := by
  simp [createStatusServer, h]

/-- A present, nonzero port passes the `!a.port` guard unchanged. -/
theorem portVal_some (p : Nat) (h : p ≠ 0) : portVal (some p) = some p := by
  cases p with
  | zero => exact absurd rfl h
  | succ q => rfl

/-- The keys present after `createStatusServer` are the old keys plus the
requested one. -/
theorem createStatusServer_servers_isSome (cfg : Config) (st : St) (ip : String)
    (port : Nat) (opts : CreateOpts) (k : String) :
    (findServer (createStatusServer cfg st ip port opts).2.servers k).isSome = true ↔
      ((findServer st.servers k).isSome = true ∨ k = ipPortKey ip port) := by
  rcases h : findServer st.servers (ipPortKey ip port) with _ | s
  · simp only [createStatusServer, h]
    rw [findServer_append_isSome, Bool.or_eq_true]
    constructor
    · rintro (h2 | h2)
      · exact Or.inl h2
      · exact Or.inr (beq_iff_eq.mp h2).symm
    · rintro (h2 | rfl)
      · exact Or.inl h2
      · exact Or.inr (by simp)
  · simp only [createStatusServer, h]
    constructor
    · intro h2
      exact Or.inl h2
    · rintro (h2 | rfl)
      · exact h2
      · rw [h]
        rfl

/-- Shape of the state after the per-allocation step when a responder is
already registered at the bind key: the registered server is updated in
place with the probe result. -/
theorem processAlloc_st_of_found (cfg : Config) (probe : String → Nat → ProbeOutcome)
    (favLoad : String → Option String) (acc : CycleAcc) (a : Alloc) (p : Nat) (s : Server)
    (hpv : portVal a.port = some p)
    (hs : findServer acc.st.servers (ipPortKey (bindHostOf cfg) p) = some s) :
    (processAlloc cfg probe favLoad acc a).st.servers =
      setServer acc.st.servers (ipPortKey (bindHostOf cfg) p)
        (if (pingBackend (probe (probeTarget a) p)).online then
          updateStatus s
            { backendOnline := true, pingInfo := (pingBackend (probe (probeTarget a) p)).pingInfo,
              om := none, fb := none }
        else
          updateStatus s
            { backendOnline := false, pingInfo := none, om := none, fb := none }) := by
  have hc := createStatusServer_found cfg acc.st (bindHostOf cfg) p
    { offlineMotd := jsOrOpt a.offlineMotd cfg.defaultOfflineMotd
      faviconBase64 := favOf favLoad a } s hs
  simp only [processAlloc, hpv, hc]

/-- Closing by key deletes exactly that key, whether or not it is
present. -/
theorem closeStatusServerKey_servers (st : St) (key : String) :
    (closeStatusServerKey st key).servers = st.servers.filter (fun kv => kv.1 != key) := by
  rcases h : findServer st.servers key with _ | s
  · have hall : ∀ kv ∈ st.servers, (kv.1 != key) = true := by
      intro kv hkv
      have hf : st.servers.find? (fun kv => kv.1 == key) = none := by
        simpa [findServer] using h
      have h2 := List.find?_eq_none.mp hf kv hkv
      simpa using h2
    simp only [closeStatusServerKey, h]
    exact (List.filter_eq_self.mpr hall).symm
  · simp [closeStatusServerKey, h]

/-- The sweep's key re-derivation round-trips a colon-free host but
mangles an IPv6 host: the key for host `::` re-derives to `":NaN"`, which
matches no registered key, so such a responder is never closed. -/
theorem sweepKeyOf_examples :
    sweepKeyOf "0.0.0.0:25565" = "0.0.0.0:25565" ∧
    sweepKeyOf ":::25565" = ":NaN" := by
  constructor
  · decide
  · decide

/-- Sweeping over a key list that covers the whole registry, with every
key surviving the split/parseInt round-trip, empties the registry. -/
theorem foldl_close_all (keys : List String) (st : St)
    (hsub : ∀ kv ∈ st.servers, kv.1 ∈ keys)
    (hround : ∀ k ∈ keys, sweepKeyOf k = k) :
    (keys.foldl (fun s k => closeStatusServerKey s (sweepKeyOf k)) st).servers = [] := by
  induction keys generalizing st with
  | nil =>
    simp only [List.foldl_nil]
    rcases hst : st.servers with _ | ⟨kv, t⟩
    · rfl
    · exfalso
      have hm : kv ∈ st.servers := by
        rw [hst]
        exact List.mem_cons_self kv t
      simpa using hsub kv hm
  | cons k keys ih =>
    simp only [List.foldl_cons]
    apply ih
    · intro kv hkv
      rw [closeStatusServerKey_servers] at hkv
      have hkv2 := List.mem_filter.mp hkv
      have hne : kv.1 ≠ sweepKeyOf k := by simpa using hkv2.2
      have hrk : sweepKeyOf k = k := hround k (List.mem_cons_self _ _)
      have hmem := hsub kv hkv2.1
      rcases List.mem_cons.mp hmem with he | hm
      · exact absurd (he.trans hrk.symm) hne
      · exact hm
    · intro k2 hk2
      exact hround k2 (List.mem_cons_of_mem _ hk2)

/-! ### Connection-machine lemmas -/

/-- An ended connection ignores every frame. -/
theorem connStep_of_ended (s : Server) (c : ConnState) (p : Packet) (h : c.ended = true) :
    connStep s c p = (c, []) := by
  unfold connStep
  rw [if_pos h]

/-- An ended connection produces no further data over any frame
sequence. -/
theorem runConn_of_ended (s : Server) (c : ConnState) (ps : List Packet)
    (h : c.ended = true) : runConn s c ps = (c, []) := by
  induction ps with
  | nil => rfl
  | cons p t ih => simp [runConn, connStep_of_ended s c p h, ih]

/-- Any frame declaring a login ends the connection at once and sends
nothing back. -/
theorem connStep_of_login (s : Server) (c : ConnState) (p : Packet)
    (h : declaresLogin p = true) :
    (connStep s c p).1.ended = true ∧ (connStep s c p).2 = [] := by
  rcases c with ⟨ph, e⟩
  cases e
  case true =>
    rw [connStep_of_ended s ⟨ph, true⟩ p rfl]
    exact ⟨rfl, rfl⟩
  case false =>
    unfold connStep
    rw [if_neg (by simp)]
    by_cases hn : startsWithLogin p.name
    · rw [if_pos hn]
      exact ⟨rfl, rfl⟩
    · rw [if_neg hn]
      have hp : p = Packet.handshake Intent.loginIntent := by
        have h2 := h
        unfold declaresLogin at h2
        rw [Bool.or_eq_true] at h2
        rcases h2 with h2 | h2
        · exact absurd h2 hn
        · exact eq_of_beq h2
      subst hp
      cases ph <;> exact ⟨rfl, rfl⟩

/-- Splitting a run at an append boundary. -/
theorem runConn_append (s : Server) (c : ConnState) (xs ys : List Packet) :
    runConn s c (xs ++ ys) =
      ((runConn s (runConn s c xs).1 ys).1,
        (runConn s c xs).2 ++ (runConn s (runConn s c xs).1 ys).2) := by
  induction xs generalizing c with
  | nil => simp [runConn]
  | cons x t ih => simp [runConn, ih, List.append_assoc]

/-! ### Claim theorems -/

/-- Claim C6: `pingBackend` never throws past its boundary — the network
outcome is mapped totally to a result that is `{online: true, payload}`
on a well-formed reply and `{online: false}` with a diagnostic error
string on any failure (timeout, refusal, malformed reply). -/
theorem pingBackend_no_throw (o : ProbeOutcome) :
    (∀ i, o = ProbeOutcome.ok i →
      pingBackend o = { online := true, pingInfo := some i, error := none }) ∧
    (∀ m str, o = ProbeOutcome.err m str →
      (pingBackend o).online = false ∧ (pingBackend o).error.isSome) := by
  constructor
  · intro i hi
    subst hi
    simp [pingBackend]
  · intro m str hm
    subst hm
    simp [pingBackend]

/-- Witness for C6 at a concrete success and a concrete refusal. -/
theorem pingBackend_no_throw_applied :
    pingBackend (ProbeOutcome.ok samplePing) =
      { online := true, pingInfo := some samplePing, error := none } ∧
    (pingBackend (ProbeOutcome.err none "connect ECONNREFUSED")).online = false :=
  ⟨(pingBackend_no_throw (ProbeOutcome.ok samplePing)).1 samplePing rfl,
   ((pingBackend_no_throw (ProbeOutcome.err none "connect ECONNREFUSED")).2
      none "connect ECONNREFUSED" rfl).1⟩

/-- Claim C7: `updateStatus` always replaces the backend-online flag and
the last probe payload, and replaces the offline message and icon only
when explicitly provided as strings, preserving them otherwise. -/
theorem updateStatus_sparse (s : Server) (u : UpdateArgs) :
    (updateStatus s u).meta.backendOnline = u.backendOnline ∧
    (updateStatus s u).meta.lastPingInfo = u.pingInfo ∧
    (∀ o, u.om = some o → (updateStatus s u).meta.offlineMotd = o) ∧
    (u.om = none → (updateStatus s u).meta.offlineMotd = s.meta.offlineMotd) ∧
    (∀ f, u.fb = some f → (updateStatus s u).meta.faviconBase64 = some f) ∧
    (u.fb = none → (updateStatus s u).meta.faviconBase64 = s.meta.faviconBase64) := by
  rcases u with ⟨b, pi, om, fb⟩
  cases om <;> cases fb <;> simp [updateStatus]

/-- Witness for C7: an update that provides only a new offline message
replaces it and preserves the favicon. -/
theorem updateStatus_sparse_applied :
    (updateStatus sampleServer
        { backendOnline := true, pingInfo := none, om := some "New", fb := none }).meta.offlineMotd
      = "New" ∧
    (updateStatus sampleServer
        { backendOnline := true, pingInfo := none, om := some "New", fb := none }).meta.faviconBase64
      = sampleServer.meta.faviconBase64 :=
  ⟨(updateStatus_sparse sampleServer
      { backendOnline := true, pingInfo := none, om := some "New", fb := none }).2.2.1 "New" rfl,
   (updateStatus_sparse sampleServer
      { backendOnline := true, pingInfo := none, om := some "New", fb := none }).2.2.2.2.2 rfl⟩

/-- Claim C4: after an `updateStatus` call, the value presented to status
queries follows the selection rule — online with a payload presents the
payload's description, falling back to the stored offline message when
the payload lacks one (absent or empty, per JavaScript truthiness);
offline, or online without a payload, presents the stored offline
message. -/
theorem updateStatus_selection_rule (s : Server) (u : UpdateArgs) :
    ((updateStatus s u).meta.backendOnline = true →
      ∀ p, (updateStatus s u).meta.lastPingInfo = some p →
        (updateStatus s u).motd =
          (match p.description with
            | some d => if d = "" then (updateStatus s u).meta.offlineMotd else d
            | none => (updateStatus s u).meta.offlineMotd)) ∧
    ((updateStatus s u).meta.backendOnline = false ∨
        (updateStatus s u).meta.lastPingInfo = none →
      (updateStatus s u).motd = (updateStatus s u).meta.offlineMotd) := by
  rcases u with ⟨b, pi, om, fb⟩
  constructor
  · intro hb p hp
    cases om <;> cases fb <;>
      simp_all [updateStatus, jsOrS] <;>
      rcases p.description with _ | d <;> simp
  · intro h
    cases om <;> cases fb <;> cases b <;> cases pi <;> simp_all [updateStatus]

/-- Witness for C4: an online update carrying a payload with description
`"Hello"` presents `"Hello"`. -/
theorem updateStatus_selection_rule_applied :
    (updateStatus sampleServer
        { backendOnline := true, pingInfo := some samplePing, om := none, fb := none }).motd
      = "Hello" :=
  ((updateStatus_selection_rule sampleServer
      { backendOnline := true, pingInfo := some samplePing, om := none, fb := none }).1
    rfl samplePing rfl).trans (by decide)

/-- Claim C8: creating a status responder is idempotent — when the key
already holds a responder, `createStatusServer` returns that responder
and leaves the registry (and the identity counter) unchanged. -/
theorem createStatusServer_idem (cfg : Config) (st : St) (ip : String) (port : Nat)
    (opts : CreateOpts) (s : Server)
    (h : findServer st.servers (ipPortKey ip port) = some s) :
    createStatusServer cfg st ip port opts = (s, st) := by
  simp [createStatusServer, h]

/-- Witness for C8 on a concrete one-entry registry. -/
theorem createStatusServer_idem_applied :
    createStatusServer sampleCfg sampleSt "0.0.0.0" 25565
        { offlineMotd := some "other", faviconBase64 := none }
      = (sampleServer, sampleSt) :=
  createStatusServer_idem sampleCfg sampleSt "0.0.0.0" 25565
    { offlineMotd := some "other", faviconBase64 := none } sampleServer (by decide)

/-- Claim C10: closing a responder is idempotent at the public interface:
with nothing registered under the key the call is a no-op; one call on a
registered responder removes the key, so a second call is a no-op. -/
theorem closeStatusServer_idem (st : St) (ip : String) (port : Nat) :
    (findServer st.servers (ipPortKey ip port) = none → closeStatusServer st ip port = st) ∧
    findServer (closeStatusServer st ip port).servers (ipPortKey ip port) = none ∧
    closeStatusServer (closeStatusServer st ip port) ip port = closeStatusServer st ip port := by
  refine ⟨?_, ?_, ?_⟩
  · intro h
    simp [closeStatusServer, closeStatusServerKey, h]
  · rcases hfind : findServer st.servers (ipPortKey ip port) with _ | s
    · simp [closeStatusServer, closeStatusServerKey, hfind]
    · simp [closeStatusServer, closeStatusServerKey, hfind, findServer_filter_ne]
  · rcases hfind : findServer st.servers (ipPortKey ip port) with _ | s
    · simp [closeStatusServer, closeStatusServerKey, hfind]
    · simp [closeStatusServer, closeStatusServerKey, hfind, findServer_filter_ne]

/-- Witness for C10 on the empty registry. -/
theorem closeStatusServer_idem_applied :
    closeStatusServer { servers := [], nextId := 0 } "0.0.0.0" 25565
      = { servers := [], nextId := 0 } :=
  (closeStatusServer_idem { servers := [], nextId := 0 } "0.0.0.0" 25565).1 (by decide)

/-- Claim C9: normalization in a reconcile cycle — an allocation with a
missing (or falsy) port is discarded, getting no responder and no probe;
for a retained allocation the probe target is the allocation's ip when
non-empty and not `0.0.0.0` and `127.0.0.1` otherwise, and the listener
key is always `(configured bind host, port)` regardless of the
allocation's ip. -/
theorem reconcile_normalization (cfg : Config) (probe : String → Nat → ProbeOutcome)
    (favLoad : String → Option String) (acc : CycleAcc) (a : Alloc) :
    ((a.port = none ∨ a.port = some 0) → processAlloc cfg probe favLoad acc a = acc) ∧
    (∀ p, a.port = some p → p ≠ 0 →
      (processAlloc cfg probe favLoad acc a).probes = acc.probes ++ [(probeTarget a, p)] ∧
      (∀ ip, a.ip = some ip → ip ≠ "" → ip ≠ "0.0.0.0" → probeTarget a = ip) ∧
      ((a.ip = none ∨ a.ip = some "" ∨ a.ip = some "0.0.0.0") →
        probeTarget a = "127.0.0.1") ∧
      (∀ k, (findServer (processAlloc cfg probe favLoad acc a).st.servers k).isSome = true ↔
        ((findServer acc.st.servers k).isSome = true ∨
          k = ipPortKey (bindHostOf cfg) p))) := by
  constructor
  · rintro (h | h)
    · simp [processAlloc, h, portVal]
    · simp [processAlloc, h, portVal]
  · intro p hp hp0
    have hpv : portVal a.port = some p := by
      rw [hp]
      exact portVal_some p hp0
    refine ⟨?_, ?_, ?_, ?_⟩
    · simp [processAlloc, hpv]
    · intro ip hip hne h0
      simp [probeTarget, hip, hne, h0]
    · rintro (h1 | h1 | h1) <;> simp [probeTarget, h1]
    · intro k
      simp only [processAlloc, hpv]
      rw [findServer_setServer_isSome]
      exact createStatusServer_servers_isSome cfg acc.st (bindHostOf cfg) p _ k

/-- Witness for C9: a portless allocation is skipped entirely, and an
allocation with ip `1.2.3.4` (distinct from the bind host) is probed at
`1.2.3.4` while its responder key uses the bind host. -/
theorem reconcile_normalization_applied :
    processAlloc sampleCfg probeDown noFav
        { st := { servers := [], nextId := 0 }, wanted := [], probes := [] }
        { ip := some "1.2.3.4", port := none, uuid := none, offlineMotd := none,
          faviconPath := none }
      = { st := { servers := [], nextId := 0 }, wanted := [], probes := [] } ∧
    probeTarget allocMismatch = "1.2.3.4" ∧
    (processAlloc sampleCfg probeDown noFav
        { st := { servers := [], nextId := 0 }, wanted := [], probes := [] }
        allocMismatch).probes = [("1.2.3.4", 25565)] :=
  ⟨(reconcile_normalization sampleCfg probeDown noFav
      { st := { servers := [], nextId := 0 }, wanted := [], probes := [] }
      { ip := some "1.2.3.4", port := none, uuid := none, offlineMotd := none,
        faviconPath := none }).1 (Or.inl rfl),
   ((reconcile_normalization sampleCfg probeDown noFav
      { st := { servers := [], nextId := 0 }, wanted := [], probes := [] }
      allocMismatch).2 25565 rfl (by decide)).2.1 "1.2.3.4" rfl (by decide) (by decide),
   (((reconcile_normalization sampleCfg probeDown noFav
      { st := { servers := [], nextId := 0 }, wanted := [], probes := [] }
      allocMismatch).2 25565 rfl (by decide)).1).trans (by decide)⟩

/-- Counterexample for C3: the allocation on port 25565 persists into a
second cycle with its offline MOTD changed from "A" to "B", yet the
responder still carries "A" — the changed offline message does not take
effect that cycle (or ever). -/
theorem reconcile_stale_offline_motd :
    (findServer cycleB.st.servers (ipPortKey "0.0.0.0" 25565)).map
        (fun s => s.meta.offlineMotd) = some "A" ∧
    (findServer cycleB.st.servers (ipPortKey "0.0.0.0" 25565)).map
        (fun s => s.meta.offlineMotd) ≠ some "B" := by
  constructor
  · decide
  · decide

/-- Claim C3 as amended: while an allocation persists across reconcile
cycles, its responder is updated in place each cycle — the probe result
refreshes the backend-online flag and last payload, and the responder's
identity is preserved — but a changed offline message or icon in the
allocation does not take effect: both keep the values fixed when the
responder was created. -/
theorem processAlloc_persisting (cfg : Config) (probe : String → Nat → ProbeOutcome)
    (favLoad : String → Option String) (acc : CycleAcc) (a : Alloc) (p : Nat) (s : Server)
    (hp : a.port = some p) (hp0 : p ≠ 0)
    (hs : findServer acc.st.servers (ipPortKey (bindHostOf cfg) p) = some s) :
    ∃ s1, findServer (processAlloc cfg probe favLoad acc a).st.servers
        (ipPortKey (bindHostOf cfg) p) = some s1 ∧
      s1.id = s.id ∧
      s1.meta.offlineMotd = s.meta.offlineMotd ∧
      s1.meta.faviconBase64 = s.meta.faviconBase64 ∧
      s1.meta.backendOnline = (pingBackend (probe (probeTarget a) p)).online ∧
      s1.meta.lastPingInfo = (pingBackend (probe (probeTarget a) p)).pingInfo := by
  have hpv : portVal a.port = some p := by
    rw [hp]
    exact portVal_some p hp0
  have hsome : (findServer acc.st.servers (ipPortKey (bindHostOf cfg) p)).isSome = true := by
    rw [hs]
    rfl
  have hsrv := processAlloc_st_of_found cfg probe favLoad acc a p s hpv hs
  rcases hpr : probe (probeTarget a) p with info | ⟨m, str⟩
  · refine ⟨updateStatus s
        { backendOnline := true, pingInfo := some info, om := none, fb := none },
      ?_, ?_, ?_, ?_, ?_, ?_⟩
    · rw [hsrv, hpr]
      simp only [pingBackend]
      rw [if_pos trivial]
      exact findServer_setServer_self _ _ _ hsome
    · simp [updateStatus]
    · simp [updateStatus]
    · simp [updateStatus]
    · simp [updateStatus, pingBackend]
    · simp [updateStatus, pingBackend]
  · refine ⟨updateStatus s
        { backendOnline := false, pingInfo := none, om := none, fb := none },
      ?_, ?_, ?_, ?_, ?_, ?_⟩
    · rw [hsrv, hpr]
      simp only [pingBackend]
      rw [if_neg (by simp)]
      exact findServer_setServer_self _ _ _ hsome
    · simp [updateStatus]
    · simp [updateStatus]
    · simp [updateStatus]
    · simp [updateStatus, pingBackend]
    · simp [updateStatus, pingBackend]

/-- Witness for the amended C3 at a concrete persisting responder. -/
theorem processAlloc_persisting_applied :
    ∃ s1, findServer (processAlloc sampleCfg probeDown noFav
        { st := sampleSt, wanted := [], probes := [] } allocB).st.servers
        (ipPortKey (bindHostOf sampleCfg) 25565) = some s1 ∧
      s1.id = sampleServer.id ∧
      s1.meta.offlineMotd = sampleServer.meta.offlineMotd ∧
      s1.meta.faviconBase64 = sampleServer.meta.faviconBase64 ∧
      s1.meta.backendOnline = (pingBackend (probeDown (probeTarget allocB) 25565)).online ∧
      s1.meta.lastPingInfo = (pingBackend (probeDown (probeTarget allocB) 25565)).pingInfo :=
  processAlloc_persisting sampleCfg probeDown noFav
    { st := sampleSt, wanted := [], probes := [] } allocB 25565 sampleServer
    rfl (by decide) (by decide)

/-- Claim C5: whenever a connection sends a frame declaring a login — a
handshake declaring login, or any login-type frame, in any order — the
connection is terminated and the client receives no status reply and no
further data from that frame on. -/
theorem login_no_reply (srv : Server) (pre post : List Packet) (p : Packet)
    (h : declaresLogin p = true) :
    (runConn srv connOpen (pre ++ p :: post)).2 = (runConn srv connOpen pre).2 ∧
    (runConn srv connOpen (pre ++ p :: post)).1.ended = true := by
  have happ := runConn_append srv connOpen pre (p :: post)
  have hstep := connStep_of_login srv (runConn srv connOpen pre).1 p h
  have hrest := runConn_of_ended srv
    (connStep srv (runConn srv connOpen pre).1 p).1 post hstep.1
  have h2 : runConn srv (runConn srv connOpen pre).1 (p :: post)
      = ((connStep srv (runConn srv connOpen pre).1 p).1, []) := by
    simp [runConn, hrest, hstep.2]
  constructor
  · rw [happ, h2]
    simp
  · rw [happ, h2]
    exact hstep.1

/-- Witness for C5: after a status handshake, a `login_start` frame ends
the connection and the trailing status request is never answered. -/
theorem login_no_reply_applied :
    (runConn sampleServer connOpen
        ([Packet.handshake Intent.statusIntent] ++
          Packet.named "login_start" :: [Packet.statusRequest])).2
      = (runConn sampleServer connOpen [Packet.handshake Intent.statusIntent]).2 ∧
    (runConn sampleServer connOpen
        ([Packet.handshake Intent.statusIntent] ++
          Packet.named "login_start" :: [Packet.statusRequest])).1.ended = true :=
  login_no_reply sampleServer [Packet.handshake Intent.statusIntent]
    [Packet.statusRequest] (Packet.named "login_start") (by decide)

/-- Counterexample for C2: a panel-mode cycle that created one responder,
followed by a cycle whose fetch returns HTTP 500 — the failing cycle does
not leave the responder registered; it closes every responder. -/
theorem panel_500_closes_responder :
    (findServer cyclePanelOk.st.servers (ipPortKey "0.0.0.0" 25565)).isSome = true ∧
    cyclePanelFail.st.servers = [] := by
  constructor
  · decide
  · decide

/-- Claim C2 as amended: a non-2xx response or a non-array body makes
`getAllocationsFromPanel` log a warning and yield an empty allocation
list, and the reconcile cycle that observes it then proceeds with zero
desired allocations and sweeps every registered responder; each responder
whose key survives the sweep's `split(':')`/`parseInt` re-derivation — in
particular every key when the bind host contains no colon, such as the
default `0.0.0.0` — is closed, leaving the registry empty after the
cycle. -/
theorem panel_failure_closes_all (cfg : Config) (probe : String → Nat → ProbeOutcome)
    (favLoad : String → Option String) (st : St) (status : Nat) (body : PanelBody)
    (h : ¬(200 ≤ status ∧ status < 300) ∨ body = PanelBody.nonArr)
    (hkeys : ∀ kv ∈ st.servers, sweepKeyOf kv.1 = kv.1) :
    getAllocationsFromPanel (FetchOutcome.reply status body) = [] ∧
    (reconcilePanel cfg probe favLoad st (FetchOutcome.reply status body)).st.servers
      = [] := by
  have hga : getAllocationsFromPanel (FetchOutcome.reply status body) = [] := by
    rcases h with h | h
    · rcases hok : httpOk status with _ | _
      · simp [getAllocationsFromPanel, hok]
      · exfalso
        apply h
        simpa [httpOk] using hok
    · subst h
      rcases hok : httpOk status with _ | _ <;> simp [getAllocationsFromPanel, hok]
  refine ⟨hga, ?_⟩
  unfold reconcilePanel
  rw [hga]
  simp only [reconcile, List.foldl_nil]
  simp
  exact foldl_close_all (st.servers.map (fun kv => kv.1)) st
    (fun kv hkv => List.mem_map_of_mem _ hkv)
    (by
      intro k2 hk2
      rcases List.mem_map.mp hk2 with ⟨kv, hkv, rfl⟩
      exact hkeys kv hkv)

/-- Witness for the amended C2: HTTP 500 against a one-responder registry
(bind host `0.0.0.0`, whose key round-trips through the sweep) empties
the registry. -/
theorem panel_failure_closes_all_applied :
    getAllocationsFromPanel (FetchOutcome.reply 500 PanelBody.nonArr) = [] ∧
    (reconcilePanel sampleCfg probeDown noFav sampleSt
        (FetchOutcome.reply 500 PanelBody.nonArr)).st.servers = [] :=
  panel_failure_closes_all sampleCfg probeDown noFav sampleSt 500 PanelBody.nonArr
    (Or.inl (by decide)) (by decide)

/-- Claim C1 fails on the code: with bind host `0.0.0.0` and the
allocation `{ip: "1.2.3.4", port: 25565}` present in two consecutive
cycles, each cycle creates a responder (the identity counter advances)
and closes it in the same cycle (the registry is empty afterwards), so no
responder — let alone the same one — remains registered after the second
cycle. The wanted-key set is built from the allocation's ip while the
responder is registered under the bind host. -/
theorem reconcile_mismatch_churns :
    cycleM1.st.servers = [] ∧ cycleM1.st.nextId = 1 ∧
    cycleM2.st.servers = [] ∧ cycleM2.st.nextId = 2 := by
  refine ⟨?_, ?_, ?_, ?_⟩
  · decide
  · decide
  · decide
  · decide

end OfflineMotd
